import Mathlib

/-!
Verification of the `devops_llm` repository core: the conversation/message
data model (`rusty_2/common/messages.py`, `rusty_2/common/conversation.py`),
the local tool executor (`rusty_2/backend/local_tools.py`), the MCP transport
address handling (`rusty_2/common/mcp_client.py`) and the agent step/loop
state machine (`rusty_2/backend/dev_agent.py`).

Python values are embedded as the inductive `PyVal` below.  Lists and dicts
are represented by cons-chains inside the same inductive (`pnil`, `pcons`,
`pkv`) so that every function on values is plain structural recursion and
reduces inside the kernel.  Stateful Python code is embedded as explicit
state passing; exceptions become `Except String`.
-/

/-- A single-quote character, built numerically so the repository's
Python-style `repr` strings can be produced. -/
def quoteCh : String := String.mk [Char.ofNat 39]

/-- Join a list of strings with a separator, like Python `sep.join(xs)`. -/
def sepJoin (sep : String) : List String → String
  | [] => ""
  | [x] => x
  | x :: y :: rest => x ++ sep ++ sepJoin sep (y :: rest)

/-- ASCII lower-casing of one character (the fragment of Python `str.lower`
exercised by the code: completion phrases and message contents are ASCII). -/
def lowerChar (c : Char) : Char :=
  if 65 ≤ c.toNat ∧ c.toNat ≤ 90 then Char.ofNat (c.toNat + 32) else c

/-- Python `s.lower()` on the ASCII fragment. -/
def strLower (s : String) : String := String.mk (s.data.map lowerChar)

/-- `isStart pat l` : does `l` start with `pat`?  (Python `startswith`.) -/
def isStart {α : Type} [BEq α] : List α → List α → Bool
  | [], _ => true
  | _ :: _, [] => false
  | p :: ps, x :: xs => p == x && isStart ps xs

/-- `listHasSub hay needle` : does `needle` occur as a contiguous run of
`hay`?  (Python `needle in hay` on strings.) -/
def listHasSub (needle : List Char) : List Char → Bool
  | [] => needle.isEmpty
  | c :: rest => isStart needle (c :: rest) || listHasSub needle rest

/-- Python `needle in hay` for strings. -/
def hasSub (hay needle : String) : Bool := listHasSub needle.data hay.data

/-- Python `s.split(sep)` for a one-character separator: keeps empty pieces
and always returns at least one piece. -/
def splitKeep (sep : Char) : List Char → List (List Char)
  | [] => [[]]
  | c :: rest =>
    let r := splitKeep sep rest
    if c == sep then [] :: r
    else
      match r with
      | h :: t => (c :: h) :: t
      | [] => [[c]]

/-- String version of `splitKeep`. -/
def strSplit (sep : Char) (s : String) : List String :=
  (splitKeep sep s.data).map String.mk

/-- Embedded Python values.  Python lists and dicts are cons-chains built
from `pnil` / `pcons` / `pkv`, carried by the `plist` / `pdict` wrappers;
this keeps all recursion over values structural.  Chains reached outside a
wrapper, or a wrapper holding a foreign constructor, do not arise from the
translated code. -/
inductive PyVal where
  | pnone
  | pbool (b : Bool)
  | pint (n : Int)
  | pstr (s : String)
  | plist (xs : PyVal)
  | pdict (kvs : PyVal)
  | pnil
  | pcons (hd tl : PyVal)
  | pkv (k : String) (v tl : PyVal)
deriving DecidableEq

/-- Python `repr` escaping of one character inside a single-quoted string
literal (the fragment needed: backslash, quote, newline, tab, CR). -/
def reprEscChar (c : Char) : String :=
  if c == '\\' then "\\\\"
  else if c.toNat == 39 then "\\" ++ quoteCh
  else if c == '\n' then "\\n"
  else if c == '\t' then "\\t"
  else if c == '\r' then "\\r"
  else String.mk [c]

/-- Python `repr` of a string (single-quoted form). -/
def pyReprStr (s : String) : String :=
  quoteCh ++ String.join (s.data.map reprEscChar) ++ quoteCh

/-- Python `repr(v)`.  On the chain constructors it renders the
comma-separated items of the enclosing list / dict. -/
def pyRepr : PyVal → String
  | .pnone => "None"
  | .pbool true => "True"
  | .pbool false => "False"
  | .pint n => toString n
  | .pstr s => pyReprStr s
  | .plist xs => "[" ++ pyRepr xs ++ "]"
  | .pdict kvs => "\x7b" ++ pyRepr kvs ++ "\x7d"
  | .pnil => ""
  | .pcons hd tl =>
    pyRepr hd ++ (match tl with | .pnil => "" | _ => ", " ++ pyRepr tl)
  | .pkv k v tl =>
    pyReprStr k ++ ": " ++ pyRepr v
      ++ (match tl with | .pnil => "" | _ => ", " ++ pyRepr tl)

/-- Python `str(v)`: the string itself for strings, `repr`-style otherwise. -/
def pyStr : PyVal → String
  | .pstr s => s
  | v => pyRepr v

/-- JSON string escaping for `json.dumps` output (fragment: backslash,
double quote, newline, tab, CR). -/
def jsonEscChar (c : Char) : String :=
  if c == '\\' then "\\\\"
  else if c == '\"' then "\\\""
  else if c == '\n' then "\\n"
  else if c == '\t' then "\\t"
  else if c == '\r' then "\\r"
  else String.mk [c]

/-- JSON rendering of a string literal. -/
def jsonStrLit (s : String) : String :=
  "\"" ++ String.join (s.data.map jsonEscChar) ++ "\""

/-- `indent * level` two-space indentation used by `json.dumps(-, indent=2)`. -/
def jsonIndent : Nat → String
  | 0 => ""
  | n + 1 => "  " ++ jsonIndent n

/-- Python `json.dumps(v, indent=2)` at nesting `level`.  On the chain
constructors it renders the item lines of the enclosing container. -/
def json_dumps : PyVal → Nat → String
  | .pnone, _ => "null"
  | .pbool true, _ => "true"
  | .pbool false, _ => "false"
  | .pint n, _ => toString n
  | .pstr s, _ => jsonStrLit s
  | .plist .pnil, _ => "[]"
  | .plist xs, lv => "[\n" ++ json_dumps xs (lv + 1) ++ "\n" ++ jsonIndent lv ++ "]"
  | .pdict .pnil, _ => "\x7b\x7d"
  | .pdict kvs, lv => "\x7b\n" ++ json_dumps kvs (lv + 1) ++ "\n" ++ jsonIndent lv ++ "\x7d"
  | .pnil, _ => ""
  | .pcons hd tl, lv =>
    jsonIndent lv ++ json_dumps hd lv
      ++ (match tl with | .pnil => "" | _ => ",\n" ++ json_dumps tl lv)
  | .pkv k v tl, lv =>
    jsonIndent lv ++ jsonStrLit k ++ ": " ++ json_dumps v lv
      ++ (match tl with | .pnil => "" | _ => ",\n" ++ json_dumps tl lv)

/-- Dict lookup on a `pkv` chain: first binding wins (Python dict `get`). -/
def chainLookup : PyVal → String → Option PyVal
  | .pkv k v tl, key => if k == key then some v else chainLookup tl key
  | _, _ => none

/-- The elements of a `pcons` chain as a Lean list. -/
def chainToList : PyVal → List PyVal
  | .pcons hd tl => hd :: chainToList tl
  | _ => []

/-- Python truthiness of an embedded value. -/
def truthy : PyVal → Bool
  | .pnone => false
  | .pbool b => b
  | .pint n => n != 0
  | .pstr s => s != ""
  | .plist .pnil => false
  | .pdict .pnil => false
  | _ => true

example : pyRepr (.pdict (.pkv "id" (.pstr "a") .pnil)) = "\x7b" ++ quoteCh ++ "id" ++ quoteCh ++ ": " ++ quoteCh ++ "a" ++ quoteCh ++ "\x7d" := by decide

example : json_dumps (.pdict (.pkv "x" (.pint 1) .pnil)) 0 = "\x7b\n  \"x\": 1\n\x7d" := by decide

example : hasSub (strLower "OK. Task Completed!") "task completed" = true := by decide

/-! ## Message model — `rusty_2/common/messages.py` -/

/-- The four roles of `messages.Role`. -/
inductive Role where
  | system
  | user
  | assistant
  | tool
deriving DecidableEq

/-- The string of a role, as stored in a message dict. -/
def roleStr : Role → String
  | .system => "system"
  | .user => "user"
  | .assistant => "assistant"
  | .tool => "tool"

/-- Parse a raw role value: valid only when it is one of the four role
strings (`message_from_dict`, messages.py:106-111). -/
def roleOf : PyVal → Option Role
  | .pstr "system" => some .system
  | .pstr "user" => some .user
  | .pstr "assistant" => some .assistant
  | .pstr "tool" => some .tool
  | _ => none

/-- A normalized, stored message: exactly the four fields the normalizer
`message_from_dict` keeps (messages.py:135-146). -/
structure Msg where
  role : Role
  content : String
  toolCallId : Option String := none
  name : Option String := none
deriving DecidableEq

/-- Text contributed by one content part (`message_from_dict`,
messages.py:124-129): a dict part typed `"text"` contributes
`str(part.get("text", ""))`; anything else contributes `str(part)`. -/
def partText (p : PyVal) : String :=
  match p with
  | .pdict kvs =>
    if chainLookup kvs "type" == some (.pstr "text")
    then pyStr ((chainLookup kvs "text").getD (.pstr ""))
    else pyStr p
  | _ => pyStr p

/-- `"\n".join` over the parts of a content list, each rendered by
`partText` (messages.py:122-130). -/
def joinPartsNL : PyVal → String
  | .pcons hd tl =>
    partText hd ++ (match tl with | .pnil => "" | .pcons h t => "\n" ++ joinPartsNL (.pcons h t) | _ => "")
  | _ => ""

/-- Content normalization of `message_from_dict` (messages.py:117-132):
a list flattens to newline-joined part texts, anything else to `str(·)`. -/
def flattenContent : PyVal → String
  | .plist parts => joinPartsNL parts
  | v => pyStr v

/-- An optional `tool_call_id` / `name` field: kept as `str(value)` when the
key is present with a non-`None` value (messages.py:141-145). -/
def optField (v : Option PyVal) : Option String :=
  match v with
  | some w => if w == .pnone then none else some (pyStr w)
  | none => none

/-- `messages.message_from_dict` (messages.py:89-147): validate the role,
require a content field, normalize content to a string, keep optional
`tool_call_id` / `name`.  Errors are `ValueError`s. -/
def message_from_dict (data : PyVal) : Except String Msg :=
  match data with
  | .pdict kvs =>
    match chainLookup kvs "role" with
    | none => .error ("Message must have a " ++ quoteCh ++ "role" ++ quoteCh ++ " field")
    | some r =>
      match roleOf r with
      | none => .error ("Invalid role " ++ pyReprStr (pyStr r) ++ ". Must be one of: system, user, assistant, tool")
      | some ro =>
        match chainLookup kvs "content" with
        | none => .error ("Message must have a " ++ quoteCh ++ "content" ++ quoteCh ++ " field")
        | some c =>
          .ok { role := ro
                content := flattenContent c
                toolCallId := optField (chainLookup kvs "tool_call_id")
                name := optField (chainLookup kvs "name") }
  | _ => .error "Message must be a dictionary"

set_option linter.unusedVariables false in
/-- `messages.tool_message` (messages.py:65-85): tool output is represented
as a normal assistant message whose content is prefixed with the line
`Tool result:`; the `tool_call_id` and `name` arguments are deliberately
dropped (the returned dict has only `role` and `content`). -/
def tool_message (content : String) (tool_call_id : PyVal) (name : PyVal) : PyVal :=
  .pdict (.pkv "role" (.pstr "assistant")
           (.pkv "content" (.pstr ("Tool result:\n" ++ content)) .pnil))

/-! ## Conversation store — `rusty_2/common/conversation.py`

A conversation is its ordered list of stored (normalized) messages.
Observers only receive copies of appended messages and their exceptions are
swallowed (conversation.py:70-75), so they do not affect any claim and are
not modelled. -/

/-- `Conversation.append` for one raw message (conversation.py:63-67):
normalize through `message_from_dict`, then append; a `ValueError`
propagates and nothing is appended. -/
def convAppend (conv : List Msg) (raw : PyVal) : Except String (List Msg) :=
  match message_from_dict raw with
  | .ok m => .ok (conv ++ [m])
  | .error e => .error e

/-- The dict form of a stored message, as serialized by
`Conversation.to_json`: the normalized fields in insertion order
(messages.py:135-146). -/
def msg_dict (m : Msg) : PyVal :=
  .pdict (.pkv "role" (.pstr (roleStr m.role))
           (.pkv "content" (.pstr m.content)
             (match m.toolCallId, m.name with
              | some t, some n => .pkv "tool_call_id" (.pstr t) (.pkv "name" (.pstr n) .pnil)
              | some t, none => .pkv "tool_call_id" (.pstr t) .pnil
              | none, some n => .pkv "name" (.pstr n) .pnil
              | none, none => .pnil)))

/-- The messages of a conversation as an embedded JSON array. -/
def msgsChain : List Msg → PyVal
  | [] => .pnil
  | m :: rest => .pcons (msg_dict m) (msgsChain rest)

/-- `Conversation.to_json` (conversation.py:107-114), at the level of the
JSON value produced by `json.dumps(self._messages, ...)`: the array of
stored message dicts.  (The textual `dumps`/`loads` pair of the standard
library is outside the repository and taken as inverse.) -/
def to_json (ms : List Msg) : PyVal := .plist (msgsChain ms)

/-- Re-append each element of a parsed JSON array through
`message_from_dict` (`Conversation.__init__` → `append`,
conversation.py:46-48). -/
def parseMsgChain : PyVal → Except String (List Msg)
  | .pnil => .ok []
  | .pcons hd tl =>
    match message_from_dict hd with
    | .error e => .error e
    | .ok m =>
      match parseMsgChain tl with
      | .error e => .error e
      | .ok rest => .ok (m :: rest)
  | _ => .error "Message must be a dictionary"

/-- `Conversation.from_json` (conversation.py:136-153): the parsed value
must be a list, and each element is validated and normalized by appending
it through `message_from_dict`. -/
def from_json (v : PyVal) : Except String (List Msg) :=
  match v with
  | .plist chain => parseMsgChain chain
  | _ => .error "JSON must contain a list of messages"

/-! ## Local tool executor — `rusty_2/backend/local_tools.py`

Filesystem paths are embedded as lists of components of an absolute POSIX
path; the repository root is taken already canonical (`DevAgent.__init__`
resolves it, dev_agent.py:70). -/

/-- The textual form of an absolute path, as `str(Path(...))` renders it. -/
def pathString (components : List String) : String :=
  "/" ++ sepJoin "/" components

/-- Lexical normalization performed by `Path.resolve()` in the absence of
symlinks: `..` pops a component, `.` and empty pieces vanish. -/
def normParts : List String → List String → List String
  | acc, [] => acc
  | acc, p :: rest =>
    if p == ".." then normParts acc.dropLast rest
    else if p == "." ∨ p == "" then normParts acc rest
    else normParts (acc ++ [p]) rest

/-- `(root / relative).resolve()` for a relative `relative` (the tools pass
repo-relative paths; an absolute argument would replace the root, pathlib
semantics). -/
def resolvedPath (root : List String) (relative : String) : List String :=
  if isStart "/".data relative.data
  then normParts [] (strSplit '/' relative)
  else normParts root (strSplit '/' relative)

/-- `LocalToolExecutor._resolve_path` (local_tools.py:146-151): resolve the
relative path against the repo root and accept it iff
`str(p).startswith(str(root))` — a plain string-prefix test.  On rejection
a `ValueError` (the spec's `PathEscapeError`) is raised. -/
def resolve_path (repoRoot : List String) (relative : String) : Except String (List String) :=
  let p := resolvedPath repoRoot relative
  if isStart (pathString repoRoot).data (pathString p).data
  then .ok p
  else .error ("Path " ++ pyReprStr relative ++ " escapes the repository root")

/-- The spec's notion of a path remaining under the root: the canonical
result is the root itself or lies below it component-wise. -/
def underRoot (root p : List String) : Bool := isStart root p

/-- `LocalToolExecutor._read_file` (local_tools.py:218-230) against an
abstract filesystem `fs`: resolve the path (a `ValueError` from
`_resolve_path` propagates), then read it, returning one text content
block; a missing file becomes a not-found text block. -/
def read_file (fs : List String → Option String) (repoRoot : List String)
    (path : String) : Except String (List PyVal) :=
  match resolve_path repoRoot path with
  | .error e => .error e
  | .ok p =>
    match fs p with
    | some text => .ok [.pdict (.pkv "type" (.pstr "text") (.pkv "data" (.pstr text) .pnil))]
    | none => .ok [.pdict (.pkv "type" (.pstr "text")
        (.pkv "data" (.pstr ("[read_file] File not found: " ++ path)) .pnil))]

/-! ## Transport client — `rusty_2/common/mcp_client.py` -/

/-- `MCPToolClient._get_transport_context` address parsing
(mcp_client.py:70-113): a `stdio://` address is split on `:`; the known
argument prefix `-m:mcp_server_git:--repository` (with at least one more
piece) has the remaining pieces re-joined with `:` into the repository
path; otherwise everything after the command is passed through unchanged.
Non-`stdio://` addresses raise `NotImplementedError`. -/
def parse_stdio_url (url : String) : Except String (String × List String) :=
  if isStart "stdio://".data url.data then
    let commandStr := String.mk (url.data.drop 8)
    match strSplit ':' commandStr with
    | [] => .error "Invalid stdio URL, no command specified"
    | command :: rest =>
      match rest with
      | [] => .ok (command, [])
      | _ =>
        if isStart ["-m", "mcp_server_git", "--repository"] rest ∧ 4 ≤ rest.length
        then .ok (command, ["-m", "mcp_server_git", "--repository", sepJoin ":" (rest.drop 3)])
        else .ok (command, rest)
  else .error ("HTTP transport not yet implemented. Please use stdio:// URLs for now. Requested URL: " ++ url)

/-- Modelled from the spec: the remote tool provider (the spawned
`mcp_server_git` process, outside this repository) requires the trailing
repository path after `--repository`; a session launched with the argument
prefix but no path cannot be established, while other argument lists are
taken to start a working session. -/
def stdio_session_ok : List String → Bool
  | ["-m", "mcp_server_git", "--repository"] => false
  | _ => true

/-- The wrapped `RuntimeError` text of a failed capability listing
(`MCPToolClient.list_tools`, mcp_client.py:165-186); the underlying causes
come from the external session and are summarized. -/
def list_tools_error (url : String) : String :=
  "Failed to list tools from MCP server at " ++ url ++ ": session could not be established"

/-- Outcome of `MCPToolClient.list_tools` for a given address
(mcp_client.py:117-186): an address-parse error or a failed session raises
(the spec's `TransportError`); otherwise the catalog is returned (its
contents constrain no claim, so it is `Unit` here). -/
def list_tools_outcome (url : String) : Except String Unit :=
  match parse_stdio_url url with
  | .error e => .error e
  | .ok (_, args) =>
    if stdio_session_ok args then .ok () else .error (list_tools_error url)

example : resolve_path ["repo"] "../repo2/secret.txt" = .ok ["repo2", "secret.txt"] := rfl

example : parse_stdio_url "stdio://python:-m:mcp_server_git:--repository:/tmp/w" =
    .ok ("python", ["-m", "mcp_server_git", "--repository", "/tmp/w"]) := rfl

example : parse_stdio_url "stdio://python:-m:mcp_server_git:--repository:C:/x" =
    .ok ("python", ["-m", "mcp_server_git", "--repository", "C:/x"]) := rfl

example : parse_stdio_url "stdio://python:-m:mcp_server_git:--repository" =
    .ok ("python", ["-m", "mcp_server_git", "--repository"]) := rfl

/-! ## Agent loop — `rusty_2/backend/dev_agent.py`

`run_task` (dev_agent.py:314-417) is embedded with its collaborators as
parameters:
* `fetch` — the outcome of the cached `_get_available_tools` catalog fetch
  (dev_agent.py:76-96, through `MCPToolClient.list_tools`); its successful
  contents constrain no claim, so they are `Unit`.
* `loads` — `json.loads` of the standard library, used only to parse
  string-typed tool-call arguments (dev_agent.py:163-167).
* `env` — tool execution: `MCPToolClient.call_tool` or
  `LocalToolExecutor.call_tool` (dev_agent.py:173-185), keyed by the
  extracted tool name, returning content blocks or raising.
* `script` — the scripted model: the assistant payload returned by
  `model_client.generate` on each step (content plus raw tool-call dicts).
* the initial transcript — the conversation built by
  `create_initial_conversation` (a system and a user message) or passed in
  as `existing_conversation` (dev_agent.py:362-369); no claim constrains
  its contents, so it is a parameter.
The field `genCalls` of the result counts `model_client.generate`
invocations; it is not part of `DevAgentResult` and only expresses
"before any generation call". -/

/-- One scripted model response: the raw assistant `content` value and the
raw `tool_calls` list (each element a raw tool-call dict). -/
structure StepScript where
  content : PyVal
  toolCalls : List PyVal

/-- Normalization of the assistant content in `DevAgent.run_step`
(dev_agent.py:119-135): `None` becomes `""`, a list of parts flattens to
newline-joined text, anything else is stringified.  (For a dict part typed
`"text"` the code appends `part.get("text", "")` without `str`; a non-string
value there would make Python's `"\n".join` raise `TypeError` — this total
model stringifies it, and no claim touches that corner.) -/
def normalizeAssistantContent (v : PyVal) : String :=
  match v with
  | .pnone => ""
  | .plist parts => joinPartsNL parts
  | w => pyStr w

/-- The assistant message dict built in `run_step` (dev_agent.py:140-148).
The optional `tool_calls` key is dropped by `message_from_dict` on append,
so it is not represented. -/
def assistantRaw (contentText : String) : PyVal :=
  .pdict (.pkv "role" (.pstr "assistant") (.pkv "content" (.pstr contentText) .pnil))

/-- Total append used inside the loop: the dicts the loop appends always
normalize successfully, so the error branch is unreachable there. -/
def appendOk (conv : List Msg) (raw : PyVal) : List Msg :=
  match convAppend conv raw with
  | .ok c => c
  | .error _ => conv

/-- Python `v.get(key)` — raises `AttributeError` when `v` is not a dict
(modelled as the error string). -/
def pyGetE (v : PyVal) (key : String) : Except String (Option PyVal) :=
  match v with
  | .pdict kvs => .ok (chainLookup kvs key)
  | _ => .error ("AttributeError: " ++ pyReprStr key)

/-- Rendering of one tool-result content block (dev_agent.py:189-198):
`text` blocks render as `str(data)`, `json` blocks as
`json.dumps(data, indent=2)`, anything else as `"[type]: data"`; missing
keys default to `"text"` / `""`.  A non-dict block raises inside the
per-call `try`. -/
def renderBlock (b : PyVal) : Except String String :=
  match pyGetE b "type" with
  | .error e => .error e
  | .ok t0 =>
    match pyGetE b "data" with
    | .error e => .error e
    | .ok d0 =>
      let t := t0.getD (.pstr "text")
      let d := d0.getD (.pstr "")
      if t == .pstr "text" then .ok (pyStr d)
      else if t == .pstr "json" then .ok (json_dumps d 0)
      else .ok ("[" ++ pyStr t ++ "]: " ++ pyStr d)

/-- Render every block of a tool result, in order. -/
def renderBlocks : List PyVal → Except String (List String)
  | [] => .ok []
  | b :: rest =>
    match renderBlock b with
    | .error e => .error e
    | .ok s =>
      match renderBlocks rest with
      | .error e => .error e
      | .ok ss => .ok (s :: ss)

/-- The body of the per-call `try` block (dev_agent.py:156-210): extract
the function name and arguments from the raw tool-call dict (malformed JSON
arguments degrade to `{}`), execute via `env`, render the blocks and join
them with blank lines, and compute the (discarded) `tool_call_id`.
Returns the content for `tool_message` and that id value. -/
def toolCallBody (loads : String → Except String PyVal)
    (env : PyVal → PyVal → Except String (List PyVal))
    (tc : PyVal) : Except String (String × PyVal) :=
  match pyGetE tc "function" with
  | .error e => .error e
  | .ok f0 =>
    let func := f0.getD (.pdict .pnil)
    match pyGetE func "name" with
    | .error e => .error e
    | .ok n0 =>
      let toolName := n0.getD .pnone
      match pyGetE func "arguments" with
      | .error e => .error e
      | .ok a0 =>
        let rawArgs := a0.getD (.pstr "\x7b\x7d")
        let arguments : PyVal :=
          match rawArgs with
          | .pstr s => (match loads s with | .ok v => v | .error _ => .pdict .pnil)
          | .pdict kvs => .pdict kvs
          | _ => .pdict .pnil
        match env toolName arguments with
        | .error e => .error e
        | .ok blocks =>
          match renderBlocks blocks with
          | .error e => .error e
          | .ok parts =>
            let toolContent := sepJoin "\n\n" parts
            match pyGetE tc "id" with
            | .error e => .error e
            | .ok id0 =>
              let idv := id0.getD .pnone
              let tcid := if truthy idv then idv else toolName
              .ok (toolContent, tcid)

/-- One iteration of the per-call loop with its `except` handler
(dev_agent.py:155-217): a successful body yields the rendered content; an
exception is caught and rendered as
`f"Error executing tool {tool_call}: {e}"` with
`tool_call_id=tool_call.get("id")` — but that `get` itself raises
(uncaught) when the call is not a dict.  The result is the `(content, id)`
pair handed to `tool_message`. -/
def dispatchOne (loads : String → Except String PyVal)
    (env : PyVal → PyVal → Except String (List PyVal))
    (tc : PyVal) : Except String (String × PyVal) :=
  match toolCallBody loads env tc with
  | .ok r => .ok r
  | .error e =>
    match pyGetE tc "id" with
    | .error e2 => .error e2
    | .ok id0 =>
      .ok ("Error executing tool " ++ pyStr tc ++ ": " ++ e, id0.getD .pnone)

/-- Sequential dispatch of the step's tool calls (dev_agent.py:154-217):
each call appends exactly one `tool_message` to the conversation; an
uncaught exception aborts the step, keeping the messages appended so far. -/
def dispatchCalls (loads : String → Except String PyVal)
    (env : PyVal → PyVal → Except String (List PyVal)) :
    List PyVal → List Msg → List Msg × Option String
  | [], conv => (conv, none)
  | tc :: rest, conv =>
    match dispatchOne loads env tc with
    | .error e => (conv, some e)
    | .ok (content, tcid) =>
      dispatchCalls loads env rest (appendOk conv (tool_message content tcid .pnone))

/-- The part of `DevAgent.run_step` after a successful generation
(dev_agent.py:111-217): normalize and append the assistant message, then
dispatch the tool calls in order.  Returns the final conversation and the
uncaught exception, if any. -/
def run_step_body (loads : String → Except String PyVal)
    (env : PyVal → PyVal → Except String (List PyVal))
    (s : StepScript) (conv : List Msg) : List Msg × Option String :=
  let conv1 := appendOk conv (assistantRaw (normalizeAssistantContent s.content))
  dispatchCalls loads env s.toolCalls conv1

/-- The fixed, lower-case completion phrases (dev_agent.py:385-392). -/
def completion_phrases : List String :=
  ["i have completed the task", "task completed", "task is complete",
   "i have finished", "task finished", "completed the task"]

/-- The completion check after a step (dev_agent.py:379-400): walk the
transcript backwards to the first message whose role is `"assistant"` and
test whether its lower-cased content contains any completion phrase; only
that message is inspected. -/
def check_done (msgs : List Msg) : Bool :=
  match msgs.reverse.find? (fun m => m.role == Role.assistant) with
  | some m => completion_phrases.any (fun ph => hasSub (strLower m.content) ph)
  | none => false

/-- The result of `run_task` (`DevAgentResult`, dev_agent.py:34-49), plus
the ghost field `genCalls` counting `model_client.generate` invocations. -/
structure RunResult where
  success : Bool
  steps : Nat
  conversation : List Msg
  error : Option String
  genCalls : Nat
deriving DecidableEq

/-- The budget-exhausted error text (dev_agent.py:407). -/
def exhaustedError (maxSteps : Nat) : String :=
  "Reached maximum steps (" ++ toString maxSteps ++ ") without completion"

/-- The stepping loop of `run_task` (dev_agent.py:372-417).  `remaining` is
the fuel left out of `maxSteps`, `done` the number of completed steps.  On
each iteration: the catalog fetch, then one generation (counted), then the
step body; an exception from fetch or dispatch ends the run as failed with
`steps = done` and the transcript accumulated so far (the outer
`try`/`except`, dev_agent.py:410-417); otherwise the completion check may
end the run successfully, and exhausting the budget ends it with the
budget error. -/
def run_loop (fetch : Except String Unit) (loads : String → Except String PyVal)
    (env : PyVal → PyVal → Except String (List PyVal))
    (script : Nat → StepScript) (maxSteps : Nat) :
    Nat → Nat → List Msg → Nat → RunResult
  | 0, done, conv, gen =>
    { success := false, steps := done, conversation := conv
      error := some (exhaustedError maxSteps), genCalls := gen }
  | remaining + 1, done, conv, gen =>
    match fetch with
    | .error e =>
      { success := false, steps := done, conversation := conv
        error := some e, genCalls := gen }
    | .ok _ =>
      match run_step_body loads env (script done) conv with
      | (conv2, some e) =>
        { success := false, steps := done, conversation := conv2
          error := some e, genCalls := gen + 1 }
      | (conv2, none) =>
        if check_done conv2 then
          { success := true, steps := done + 1, conversation := conv2
            error := none, genCalls := gen + 1 }
        else
          run_loop fetch loads env script maxSteps remaining (done + 1) conv2 (gen + 1)

/-- `run_task` (dev_agent.py:314-417) over a scripted model and an initial
transcript: run up to `maxSteps` steps, checking for completion after each. -/
def run_task (fetch : Except String Unit) (loads : String → Except String PyVal)
    (env : PyVal → PyVal → Except String (List PyVal))
    (script : Nat → StepScript) (maxSteps : Nat) (initConv : List Msg) : RunResult :=
  run_loop fetch loads env script maxSteps maxSteps 0 initConv 0

/-! ## Spec-side statements and concrete run inputs -/

/-- The claim side of the content-flattening rule, stated over Lean lists:
each part contributes its text (dict parts typed `"text"`) or its
stringification, joined with single newline separators; non-list content is
stringified. -/
def spec_flatten (c : PyVal) : String :=
  match c with
  | .plist parts => sepJoin "\n" ((chainToList parts).map partText)
  | v => pyStr v

/-- Is an embedded value a Python dict? -/
def isDict : PyVal → Bool
  | .pdict _ => true
  | _ => false

/-- The single stored message produced for one dispatched tool call: the
`tool_message` of the rendered (or error) content.  The error fallback is
unreachable when the call is a dict. -/
def msgOfCall (loads : String → Except String PyVal)
    (env : PyVal → PyVal → Except String (List PyVal)) (tc : PyVal) : Msg :=
  match dispatchOne loads env tc with
  | .ok (content, _) => { role := .assistant, content := "Tool result:\n" ++ content }
  | .error _ => { role := .assistant, content := "" }

/-- A `json.loads` that rejects every string: the scripted tool calls below
carry dict arguments, so it is never consulted. -/
def loadsNever : String → Except String PyVal := fun _ => .error "json.JSONDecodeError"

/-- A successful catalog fetch. -/
def fetchOk : Except String Unit := .ok ()

/-- A text content block. -/
def textBlock (s : String) : PyVal :=
  .pdict (.pkv "type" (.pstr "text") (.pkv "data" (.pstr s) .pnil))

/-- A well-formed `list_files` tool-call dict with id `call_1`. -/
def tcListFiles : PyVal :=
  .pdict (.pkv "id" (.pstr "call_1")
    (.pkv "function" (.pdict (.pkv "name" (.pstr "list_files")
      (.pkv "arguments" (.pdict .pnil) .pnil))) .pnil))

/-- A well-formed tool-call dict with id `call_2` naming a failing tool. -/
def tcBoom : PyVal :=
  .pdict (.pkv "id" (.pstr "call_1")
    (.pkv "function" (.pdict (.pkv "name" (.pstr "boom")
      (.pkv "arguments" (.pdict .pnil) .pnil))) .pnil))

/-- Tool environment whose every call returns one fixed text block. -/
def envText (s : String) : PyVal → PyVal → Except String (List PyVal) :=
  fun _ _ => .ok [textBlock s]

/-- Run for claim C1's failing input: a 10-step budget; the model says
`"I fixed it. Task completed"` on step 3 and also issues one tool call,
whose result renders `"42 files listed"`; every other step is a plain
non-matching message with no tool calls. -/
def scriptC1 : Nat → StepScript := fun i =>
  if i == 2 then { content := .pstr "I fixed it. Task completed", toolCalls := [tcListFiles] }
  else { content := .pstr "Still working on it.", toolCalls := [] }

def runC1 : RunResult :=
  run_task fetchOk loadsNever (envText "42 files listed") scriptC1 10 []

/-- Run for claim C2's failing input: a 2-step budget; the model says
`"Let me check the notes."` on step 1 with one tool call whose result text
contains the phrase `task completed`; the model itself never emits any
completion phrase. -/
def scriptC2 : Nat → StepScript := fun i =>
  if i == 0 then { content := .pstr "Let me check the notes.", toolCalls := [tcListFiles] }
  else { content := .pstr "Still looking.", toolCalls := [] }

def runC2 : RunResult :=
  run_task fetchOk loadsNever (envText "note: task completed earlier by someone") scriptC2 2 []

/-- Step for claim C4's failing input: the model answers `"Task completed"`
and issues one tool call whose result renders `"ok"`. -/
def stepC4 : StepScript := { content := .pstr "Task completed", toolCalls := [tcListFiles] }

def convC4 : List Msg := (run_step_body loadsNever (envText "ok") stepC4 []).1

/-- Abstract filesystem for claim C3: only `/repo2/secret.txt` exists,
outside the repository root `/repo`. -/
def fsC3 : List String → Option String :=
  fun p => if p == ["repo2", "secret.txt"] then some "TOP SECRET" else none

/-- Tool environment for claim C7: the tool `boom` raises, every other
call returns one `"ok"` text block. -/
def envC7 : PyVal → PyVal → Except String (List PyVal) := fun name _ =>
  if name == .pstr "boom" then .error "ValueError: Unknown local tool: boom"
  else .ok [textBlock "ok"]

def dispatchC7 : List Msg × Option String :=
  dispatchCalls loadsNever envC7 [tcBoom, tcListFiles] []

/-- A `json`-typed content block carrying the object `{"x": 1}`. -/
def jsonBlockX : PyVal :=
  .pdict (.pkv "type" (.pstr "json") (.pkv "data" (.pdict (.pkv "x" (.pint 1) .pnil)) .pnil))

/-- The messages appended for claim C8's input: one tool call whose result
is exactly the blocks `{type:"text",data:"A"}` then `{type:"json",
data:{"x":1}}`. -/
def msgsC8 : List Msg :=
  (dispatchCalls loadsNever (fun _ _ => .ok [textBlock "A", jsonBlockX]) [tcListFiles] []).1

/-- The malformed remote address of claim C9: the argument prefix with no
trailing repository path. -/
def badStdioUrl : String := "stdio://python:-m:mcp_server_git:--repository"

/-- Raw message for claim C5's witness: a valid role and a content list of
a `"text"`-typed part, a plain string and an integer. -/
def kvsC5 : PyVal :=
  .pkv "role" (.pstr "user")
    (.pkv "content" (.plist (.pcons (.pdict (.pkv "type" (.pstr "text") (.pkv "text" (.pstr "hello") .pnil)))
      (.pcons (.pstr "plain") (.pcons (.pint 5) .pnil)))) .pnil)

/-- Content value of `kvsC5`. -/
def contentC5 : PyVal :=
  .plist (.pcons (.pdict (.pkv "type" (.pstr "text") (.pkv "text" (.pstr "hello") .pnil)))
    (.pcons (.pstr "plain") (.pcons (.pint 5) .pnil)))

/-- Calls list for claim C7's witness. -/
def callsC7 : List PyVal := [tcBoom, tcListFiles]

/-- A scripted model that answers a plain greeting and no tool calls. -/
def scriptQuiet : Nat → StepScript := fun _ => { content := .pstr "hi", toolCalls := [] }

/-! ## Helper lemmas -/

/-- The chain-recursive newline join equals the list-level
`"\n"`-separated join of the part texts. -/
theorem joinPartsNL_eq_sepJoin (chain : PyVal) :
    joinPartsNL chain = sepJoin "\n" ((chainToList chain).map partText) := by
  induction chain with
  | pcons hd tl ih_hd ih_tl =>
    cases tl
    all_goals simp [joinPartsNL, chainToList, sepJoin] at *
    all_goals simp [ih_tl, chainToList, sepJoin, String.append_assoc]
  | _ => rfl

/-- `message_from_dict`'s content normalization agrees with the claim-side
flattening rule. -/
theorem flattenContent_eq_spec (c : PyVal) : flattenContent c = spec_flatten c := by
  cases c <;> simp [flattenContent, spec_flatten, joinPartsNL_eq_sepJoin]

/-- Re-normalizing a stored message dict is the identity. -/
theorem mfd_msg_dict (m : Msg) : message_from_dict (msg_dict m) = .ok m := by
  obtain ⟨ro, c, t, n⟩ := m
  cases ro <;> cases t <;> cases n <;> rfl

/-- Dispatching a dict-shaped tool call always yields a message: either the
rendered result or the caught-exception rendering. -/
theorem dispatchOne_of_dict (loads : String → Except String PyVal)
    (env : PyVal → PyVal → Except String (List PyVal)) (kvs : PyVal) :
    ∃ content tcid, dispatchOne loads env (.pdict kvs) = .ok (content, tcid) := by
  unfold dispatchOne
  cases h : toolCallBody loads env (.pdict kvs) with
  | ok r => exact ⟨r.1, r.2, by simp [h]⟩
  | error e =>
    exact ⟨"Error executing tool " ++ pyStr (.pdict kvs) ++ ": " ++ e,
      (chainLookup kvs "id").getD .pnone, by simp [h, pyGetE]⟩

/-- Appending a `tool_message` stores one assistant message with the
`Tool result:` prefix and no optional fields. -/
theorem append_tool_msg (conv : List Msg) (content : String) (tcid nm : PyVal) :
    appendOk conv (tool_message content tcid nm) =
      conv ++ [{ role := Role.assistant, content := "Tool result:\n" ++ content }] := rfl

/-! ## Claim theorems -/

/-- Claim C1 (code bug): with a 10-step budget, even though the model's
assistant message on step 3 contains the literal phrase `Task completed`
and no earlier model message contains any completion phrase, `run_task`
returns `success = false` and `steps = 10` — not `success = true, steps = 3`
as the claim states — because step 3 also dispatched a tool call, so the
completion check (which scans backwards for the first role-`assistant`
message) lands on the step's last tool-result message, which `tool_message`
stored with role `assistant`. -/
theorem c1_completion_missed_with_tool_calls :
    runC1.success = false ∧ runC1.steps = 10 ∧
      runC1.error = some (exhaustedError 10) ∧
      hasSub (strLower (normalizeAssistantContent (scriptC1 2).content)) "task completed" = true ∧
      completion_phrases.all
        (fun ph => !hasSub (strLower (normalizeAssistantContent (scriptC1 0).content)) ph) = true := by
  decide

/-- Claim C2 (code bug): with a 2-step budget and a model that never emits
any completion phrase in any of its messages, `run_task` returns
`success = true, steps = 1` with no error — not `success = false,
steps = 2` with a budget-exhausted error as the claim states — because the
step's tool result contained the substring `task completed` and the
completion check read that tool-result message (stored with role
`assistant`). -/
theorem c2_false_completion_from_tool_result :
    runC2.success = true ∧ runC2.steps = 1 ∧ runC2.error = none ∧
      completion_phrases.all
        (fun ph => !hasSub (strLower (normalizeAssistantContent (scriptC2 0).content)) ph
          && !hasSub (strLower (normalizeAssistantContent (scriptC2 1).content)) ph) = true := by
  decide

/-- Claim C3 (code bug): the path `../repo2/secret.txt`, resolved against
the root `/repo` and canonicalized, is `/repo2/secret.txt` — not under the
root — yet `_resolve_path`'s `str(p).startswith(str(root))` test accepts it
(`"/repo2/secret.txt"` starts with `"/repo"`), so no `PathEscapeError` is
raised and `read_file` goes on to read the outside file. -/
theorem c3_path_escape_not_detected :
    resolvedPath ["repo"] "../repo2/secret.txt" = ["repo2", "secret.txt"] ∧
      underRoot ["repo"] (resolvedPath ["repo"] "../repo2/secret.txt") = false ∧
      resolve_path ["repo"] "../repo2/secret.txt" = .ok ["repo2", "secret.txt"] ∧
      read_file fsC3 ["repo"] "../repo2/secret.txt" = .ok [textBlock "TOP SECRET"] :=
  ⟨by decide, by decide, rfl, rfl⟩

/-- Claim C4 (code bug): after a step in which tool calls were dispatched,
the completion check does not inspect the model-produced assistant message:
the backwards scan for the first role-`assistant` message finds the
step's last tool-result message (stored with role `assistant` by
`tool_message`), so a completion phrase in the model's own message is
missed. -/
theorem c4_check_inspects_tool_result :
    convC4 = [{ role := .assistant, content := "Task completed" },
              { role := .assistant, content := "Tool result:\nok" }] ∧
      convC4.reverse.find? (fun m => m.role == Role.assistant) =
        some { role := .assistant, content := "Tool result:\nok" } ∧
      check_done convC4 = false ∧
      completion_phrases.any
        (fun ph => hasSub (strLower (normalizeAssistantContent stepC4.content)) ph) = true := by
  decide

/-- Claim C5 (confirmed): appending a message with a valid role and a
content field stores content normalized by the flattening rule — a list of
parts becomes the newline-joined sequence of each part's text (for dict
parts typed `"text"`) or stringification, and non-list content is
stringified — with optional `tool_call_id` / `name` kept as strings. -/
theorem c5_append_flattens_content (conv : List Msg) (kvs r : PyVal) (ro : Role) (c : PyVal)
    (h1 : chainLookup kvs "role" = some r) (h2 : roleOf r = some ro)
    (h3 : chainLookup kvs "content" = some c) :
    convAppend conv (.pdict kvs) =
      .ok (conv ++ [(⟨ro, spec_flatten c, optField (chainLookup kvs "tool_call_id"),
        optField (chainLookup kvs "name")⟩ : Msg)]) := by
  simp [convAppend, message_from_dict, h1, h2, h3, flattenContent_eq_spec]

/-- Witness for C5: a `user` message whose content list holds a
`"text"`-typed part, a plain string and an integer is stored flattened to
`"hello\nplain\n5"`. -/
theorem c5_append_flattens_content_witness :
    chainLookup kvsC5 "role" = some (.pstr "user") ∧
      roleOf (.pstr "user") = some Role.user ∧
      chainLookup kvsC5 "content" = some contentC5 ∧
      convAppend [] (.pdict kvsC5) =
        .ok ([] ++ [(⟨Role.user, spec_flatten contentC5, optField (chainLookup kvsC5 "tool_call_id"),
          optField (chainLookup kvsC5 "name")⟩ : Msg)]) ∧
      spec_flatten contentC5 = "hello\nplain\n5" :=
  ⟨rfl, rfl, rfl,
    c5_append_flattens_content [] kvsC5 (.pstr "user") Role.user contentC5 rfl rfl rfl,
    by decide⟩

/-- Claim C6 (confirmed): serializing a conversation's stored message list
with `to_json` and deserializing it with `from_json` (which re-validates
and re-normalizes every message) reproduces an equal ordered message
sequence. -/
theorem c6_serialization_round_trip (ms : List Msg) : from_json (to_json ms) = .ok ms := by
  induction ms with
  | nil => rfl
  | cons m rest ih =>
    have ih2 : parseMsgChain (msgsChain rest) = .ok rest := ih
    simp [from_json, to_json, msgsChain, parseMsgChain, mfd_msg_dict, ih2]

/-- Counterexample for C7: the first dispatched call (id `call_1`) raises,
and the appended error message does NOT carry `call_1` as its
`tool_call_id` — no stored message carries any `tool_call_id` at all
(`tool_message` drops it); the id survives only inside the stringified call
in the error text, and dispatch continues to the second call. -/
theorem c7_tool_call_id_discarded_cex :
    dispatchC7.2 = none ∧ dispatchC7.1.length = 2 ∧
      dispatchC7.1.map Msg.toolCallId = [none, none] ∧
      dispatchC7.1.filter (fun m => m.toolCallId == some "call_1") = [] ∧
      (dispatchC7.1.get? 0).map (fun m => hasSub m.content "Error executing tool") = some true ∧
      (dispatchC7.1.get? 0).map (fun m => hasSub m.content "call_1") = some true ∧
      dispatchC7.1.get? 1 = some { role := .assistant, content := "Tool result:\nok" } := by
  decide

/-- Claim C7 (corrected): for dict-shaped tool calls, an execution
exception is caught and rendered as one error tool-result message — an
assistant-role message with no `tool_call_id` field, the call's id
appearing only inside the stringified call in the content — and dispatch
continues with the next call in order; the step is not aborted. -/
theorem c7_exception_caught_dispatch_continues (loads : String → Except String PyVal)
    (env : PyVal → PyVal → Except String (List PyVal))
    (calls : List PyVal) (conv : List Msg)
    (h : ∀ tc ∈ calls, isDict tc = true) :
    dispatchCalls loads env calls conv = (conv ++ calls.map (msgOfCall loads env), none) ∧
      ∀ tc : PyVal, (msgOfCall loads env tc).role = Role.assistant ∧
        (msgOfCall loads env tc).toolCallId = none := by
  constructor
  · induction calls generalizing conv with
    | nil => simp [dispatchCalls]
    | cons tc rest ih =>
      obtain ⟨kvs, rfl⟩ : ∃ kvs, tc = .pdict kvs := by
        have := h tc (by simp)
        cases tc <;> simp [isDict] at this ⊢
      obtain ⟨content, tcid, hd⟩ := dispatchOne_of_dict loads env kvs
      have hrest : ∀ tc ∈ rest, isDict tc = true := fun tc htc => h tc (by simp [htc])
      simp [dispatchCalls, hd, append_tool_msg, msgOfCall, ih _ hrest, List.append_assoc]
  · intro tc
    cases hd : dispatchOne loads env tc with
    | ok r => simp [msgOfCall, hd]
    | error e => simp [msgOfCall, hd]

/-- Witness for C7: the two-call list (a raising call, then a succeeding
one) is dispatched into exactly one stored message per call with no abort. -/
theorem c7_exception_caught_dispatch_continues_witness :
    (∀ tc ∈ callsC7, isDict tc = true) ∧
      dispatchCalls loadsNever envC7 callsC7 [] =
        ([] ++ callsC7.map (msgOfCall loadsNever envC7), none) :=
  ⟨by decide, (c7_exception_caught_dispatch_continues loadsNever envC7 callsC7 [] (by decide)).1⟩

/-- Counterexample for C8: the single message appended for the blocks
`{type:"text",data:"A"}` then `{type:"json",data:{"x":1}}` has content
`"Tool result:\nA\n\n{\n  \"x\": 1\n}"`, not the claimed
`"A\n\n{\n  \"x\": 1\n}"` — `tool_message` prepends the `Tool result:`
line before the message is stored. -/
theorem c8_tool_result_prefix_cex :
    msgsC8 = [{ role := .assistant, content := "Tool result:\nA\n\n\x7b\n  \"x\": 1\n\x7d" }] ∧
      ¬ msgsC8.map Msg.content = ["A\n\n\x7b\n  \"x\": 1\n\x7d"] := by
  decide

/-- Claim C8 (corrected): the single tool-result message appended for the
blocks `{type:"text",data:"A"}` then `{type:"json",data:{"x":1}}` has
content exactly the `Tool result:` prefix line followed by the text block,
a blank-line separator, and the JSON pretty-printed with 2-space
indentation. -/
theorem c8_rendered_with_prefix :
    msgsC8.map Msg.content =
      ["Tool result:\n" ++ sepJoin "\n\n" ["A", json_dumps (.pdict (.pkv "x" (.pint 1) .pnil)) 0]] ∧
      json_dumps (.pdict (.pkv "x" (.pint 1) .pnil)) 0 = "\x7b\n  \"x\": 1\n\x7d" := by
  decide

/-- Claim C9 (confirmed): for the remote address missing its required
trailing path (`stdio://python:-m:mcp_server_git:--repository`), the
address parses into the path-less argument list, the session cannot be
established (modelled from the spec in `stdio_session_ok`), and `run_task`
fails with the wrapped transport error after zero steps and — since the
catalog fetch precedes generation inside `run_step` — zero generation
calls. -/
theorem c9_transport_error_before_generation (loads : String → Except String PyVal)
    (env : PyVal → PyVal → Except String (List PyVal))
    (script : Nat → StepScript) (conv : List Msg) (maxSteps : Nat)
    (h : 0 < maxSteps) :
    parse_stdio_url badStdioUrl = .ok ("python", ["-m", "mcp_server_git", "--repository"]) ∧
      run_task (list_tools_outcome badStdioUrl) loads env script maxSteps conv =
        { success := false, steps := 0, conversation := conv,
          error := some (list_tools_error badStdioUrl), genCalls := 0 } := by
  refine ⟨rfl, ?_⟩
  cases maxSteps with
  | zero => omega
  | succ n => rfl

/-- Witness for C9: the failed run at budget 10 with a concrete scripted
model and environment. -/
theorem c9_transport_error_before_generation_witness :
    0 < 10 ∧
      (parse_stdio_url badStdioUrl = .ok ("python", ["-m", "mcp_server_git", "--repository"]) ∧
        run_task (list_tools_outcome badStdioUrl) loadsNever (envText "ok") scriptQuiet 10 [] =
          { success := false, steps := 0, conversation := [],
            error := some (list_tools_error badStdioUrl), genCalls := 0 }) :=
  ⟨by decide,
    c9_transport_error_before_generation loadsNever (envText "ok") scriptQuiet [] 10 (by decide)⟩

/-- Claim C10 (confirmed): every tool-result message is appended through
`tool_message` and stored with role `assistant` (never `tool`), content
prefixed by the line `Tool result:` and a newline, and with the
`tool_call_id` and `name` arguments discarded — the stored message carries
neither, whatever values were passed. -/
theorem c10_tool_result_stored_as_assistant (conv : List Msg) (content : String)
    (tcid nm : PyVal) :
    convAppend conv (tool_message content tcid nm) =
      .ok (conv ++ [(⟨Role.assistant, "Tool result:\n" ++ content, none, none⟩ : Msg)]) := rfl
